import Mathlib

/-!
Verification of the LifeBlock marketing-image generators.

The repository consists of five Python scripts that draw promotional
images: a deterministic 3x3 grid-icon routine (app icon, logos), a
randomized mock-data grid (banners, screenshots), a hex-color parser,
and a font-resolution fallback chain.  This file shallowly embeds those
routines: pixel coordinates are rationals (Python ints and floats under
exact arithmetic), Python list indexing (including negative-index
wraparound and IndexError) is modelled by an Option-valued lookup, and
the process-wide random source is made an explicit parameter.
-/

/-- An RGB color triple, as produced by hex_to_rgb in generate_icon.py. -/
abbrev RGB := Nat × Nat × Nat

/-- A rounded-rectangle draw call: the span [x, y, x2, y2], the corner
radius, and the fill color, as passed to draw.rounded_rectangle. -/
structure Rect where
  x : ℚ
  y : ℚ
  x2 : ℚ
  y2 : ℚ
  radius : ℚ
  fill : RGB
deriving DecidableEq, Repr

/-- Python list indexing xs[i]: a nonnegative index reads from the
front, a negative index wraps to length + i, and an index out of range
on either side is an IndexError, modelled as none. -/
def pyGetItem {α : Type} (xs : List α) (i : Int) : Option α :=
  if 0 ≤ i then xs.get? i.toNat
  else if 0 ≤ i + xs.length then xs.get? (i + xs.length).toNat
  else none

/-- Python random.choice(xs): picks an element of xs (the draw is
modelled by an explicit index k, reduced mod the length); on an empty
sequence it raises IndexError, modelled as none. -/
def pyChoice {α : Type} (xs : List α) (k : Nat) : Option α :=
  xs.get? (k % xs.length)

/-- Value of a single hexadecimal digit, upper or lower case. -/
def hexDigitVal (c : Char) : Option Nat :=
  if '0' ≤ c ∧ c ≤ '9' then some (c.toNat - '0'.toNat)
  else if 'a' ≤ c ∧ c ≤ 'f' then some (c.toNat - 'a'.toNat + 10)
  else if 'A' ≤ c ∧ c ≤ 'F' then some (c.toNat - 'A'.toNat + 10)
  else none

/-- Python int(s, 16) on a slice of hex digits: empty string or any
non-hex character is a ValueError, modelled as none. -/
def pyIntHex (ds : List Char) : Option Nat :=
  match ds with
  | [] => none
  | _ =>
    ds.foldl (fun acc c => acc.bind fun a => (hexDigitVal c).map fun v => 16 * a + v)
      (some 0)

/-- Python str.lstrip with argument the single character; removes every
leading occurrence, as hex_color.lstrip in generate_icon.py does. -/
def lstripHash : List Char → List Char
  | [] => []
  | c :: cs => if c = '#' then lstripHash cs else c :: cs

/-- hex_to_rgb from src/AppIcon/generate_icon.py: strip a leading
run of the hash character, then parse the two-character slices at
offsets 0, 2 and 4 as base-16 integers. -/
def hex_to_rgb (s : List Char) : Option RGB := do
  let h := lstripHash s
  let r ← pyIntHex ((h.drop 0).take 2)
  let g ← pyIntHex ((h.drop 2).take 2)
  let b ← pyIntHex ((h.drop 4).take 2)
  pure (r, g, b)

/-- Sequence a list of fallible draw calls: the first failure aborts
the whole render, as an uncaught Python exception would. -/
def optionList {α : Type} : List (Option α) → Option (List α)
  | [] => some []
  | o :: rest => o.bind fun a => (optionList rest).map fun as => a :: as

/-- The (row, col) pairs visited by the two nested range(3) loops of
the 3x3 grid routines, in loop order. -/
def cellIndices : List (Nat × Nat) :=
  (List.range 3).flatMap fun r => (List.range 3).map fun c => (r, c)

/-- Perceptual brightness of a color: the ITU-R BT.601 luma numerator
299 r + 587 g + 114 b (scaled by 1000), monotone in each channel. -/
def luminance (c : RGB) : Nat :=
  299 * c.1 + 587 * c.2.1 + 114 * c.2.2

/-- A palette is ordered when its first entry is dimmest (the
empty/background shade) and its last entry is brightest (the
maximum-activity shade). -/
def paletteOrdered : List RGB → Bool
  | [] => true
  | c :: cs =>
    (cs.all fun d => luminance c ≤ luminance d) &&
    ((c :: cs).all fun d => luminance d ≤ luminance ((c :: cs).getLastD c))

namespace AppIcon

/-- BACKGROUND = hex_to_rgb("#0D1117") in generate_icon.py. -/
def BACKGROUND : RGB := (13, 17, 23)

/-- GRID_COLORS in generate_icon.py: the four GitHub contribution
levels, darkest (level 1) to brightest (level 4), each defined in the
source by a hex_to_rgb call on the listed hex string. -/
def GRID_COLORS : List RGB :=
  [(14, 68, 41), (0, 109, 50), (38, 166, 65), (57, 211, 83)]

/-- padding = size * 0.15 in create_icon. -/
def padding (size : ℚ) : ℚ := size * 0.15

/-- grid_size = size - (padding * 2) in create_icon. -/
def grid_size (size : ℚ) : ℚ := size - padding size * 2

/-- cell_size = grid_size / 3 in create_icon (the cell stride). -/
def cell_size (size : ℚ) : ℚ := grid_size size / 3

/-- gap = cell_size * 0.12 in create_icon. -/
def gap (size : ℚ) : ℚ := cell_size size * 0.12

/-- actual_cell = cell_size - gap in create_icon (the drawn square). -/
def actual_cell (size : ℚ) : ℚ := cell_size size - gap size

/-- corner_radius = actual_cell * 0.2 in create_icon. -/
def corner_radius (size : ℚ) : ℚ := actual_cell size * 0.2

/-- grid_levels in create_icon: the hard-coded diagonal gradient. -/
def grid_levels : List (List Int) := [[1, 2, 3], [2, 3, 4], [3, 4, 4]]

/-- The palette lookup GRID_COLORS[level - 1] in create_icon, under
Python indexing semantics. -/
def levelColor (level : Int) : Option RGB := pyGetItem GRID_COLORS (level - 1)

/-- x = padding + (col * cell_size) + (gap / 2) in create_icon. -/
def cellX (size : ℚ) (col : Nat) : ℚ :=
  padding size + col * cell_size size + gap size / 2

/-- y = padding + (row * cell_size) + (gap / 2) in create_icon. -/
def cellY (size : ℚ) (row : Nat) : ℚ :=
  padding size + row * cell_size size + gap size / 2

/-- One iteration of create_icon's nested loop: look up the level and
its color, then issue the rounded_rectangle call spanning
[x, y, x + actual_cell, y + actual_cell] with radius corner_radius. -/
def cellOf (size : ℚ) (row col : Nat) : Option Rect := do
  let lvlRow ← pyGetItem grid_levels row
  let level ← pyGetItem lvlRow col
  let color ← levelColor level
  pure
    { x := cellX size col
      y := cellY size row
      x2 := cellX size col + actual_cell size
      y2 := cellY size row + actual_cell size
      radius := corner_radius size
      fill := color }

/-- create_icon from generate_icon.py: the nine rounded-rectangle draw
calls of the 3x3 grid, in loop order; any failed lookup aborts. -/
def create_icon (size : ℚ) : Option (List Rect) :=
  optionList (cellIndices.map fun rc => cellOf size rc.1 rc.2)

end AppIcon

namespace Logos

/-- The shared green palette constants of generate_logos.py. -/
def GREEN_DARK : RGB := (14, 68, 41)

def GREEN_MED : RGB := (0, 109, 50)

def GREEN_LIGHT : RGB := (38, 166, 65)

def GREEN_BRIGHT : RGB := (57, 211, 83)

/-- levels in draw_grid_icon of generate_logos.py. -/
def levels : List RGB := [GREEN_DARK, GREEN_MED, GREEN_LIGHT, GREEN_BRIGHT]

/-- pattern in draw_grid_icon of generate_logos.py. -/
def pattern : List (List Int) := [[0, 1, 2], [1, 2, 3], [2, 3, 3]]

/-- cx = x + col * (cell_size + gap) in draw_grid_icon. -/
def cellX (x cell_size gp : ℚ) (col : Nat) : ℚ := x + col * (cell_size + gp)

/-- cy = y + row * (cell_size + gap) in draw_grid_icon. -/
def cellY (y cell_size gp : ℚ) (row : Nat) : ℚ := y + row * (cell_size + gp)

/-- One iteration of draw_grid_icon's nested loop: color =
levels[pattern[row][col]], then rounded_rectangle over
[cx, cy, cx + cell_size, cy + cell_size] with radius cell_size * 0.2. -/
def cellRect (x y cell_size gp : ℚ) (row col : Nat) : Option Rect := do
  let pr ← pyGetItem pattern row
  let lvl ← pyGetItem pr col
  let color ← pyGetItem levels lvl
  pure
    { x := cellX x cell_size gp col
      y := cellY y cell_size gp row
      x2 := cellX x cell_size gp col + cell_size
      y2 := cellY y cell_size gp row + cell_size
      radius := cell_size * 0.2
      fill := color }

/-- draw_grid_icon from generate_logos.py: the nine rounded-rectangle
draw calls of the 3x3 icon, in loop order. -/
def draw_grid_icon (x y cell_size gp : ℚ) : Option (List Rect) :=
  optionList (cellIndices.map fun rc => cellRect x y cell_size gp rc.1 rc.2)

end Logos

namespace Lifeblock

/-- levels in draw_grid_icon of generate_lifeblock_logos.py. -/
def levels : List RGB :=
  [Logos.GREEN_DARK, Logos.GREEN_MED, Logos.GREEN_LIGHT, Logos.GREEN_BRIGHT]

/-- pattern in draw_grid_icon of generate_lifeblock_logos.py. -/
def pattern : List (List Int) := [[0, 1, 2], [1, 2, 3], [2, 3, 3]]

/-- cx = x + col * (cell_size + gap) in draw_grid_icon of
generate_lifeblock_logos.py. -/
def cellX (x cell_size gp : ℚ) (col : Nat) : ℚ := x + col * (cell_size + gp)

/-- cy = y + row * (cell_size + gap) in draw_grid_icon of
generate_lifeblock_logos.py. -/
def cellY (y cell_size gp : ℚ) (row : Nat) : ℚ := y + row * (cell_size + gp)

end Lifeblock

namespace Banners

/-- Color constants of generate_banners.py. -/
def BACKGROUND : RGB := (13, 17, 23)

def CARD_BG : RGB := (22, 27, 34)

def GREEN_DARK : RGB := (14, 68, 41)

def GREEN_MED : RGB := (0, 109, 50)

def GREEN_LIGHT : RGB := (38, 166, 65)

def GREEN_BRIGHT : RGB := (57, 211, 83)

/-- levels in draw_mini_grid of generate_banners.py: card background
first, then the four greens. -/
def levels : List RGB := [CARD_BG, GREEN_DARK, GREEN_MED, GREEN_LIGHT, GREEN_BRIGHT]

/-- cx = x + col * (cell_size + gap) in draw_mini_grid. -/
def miniCellX (x cell_size gp : ℚ) (col : Nat) : ℚ := x + col * (cell_size + gp)

/-- cy = y + row * (cell_size + gap) in draw_mini_grid. -/
def miniCellY (y cell_size gp : ℚ) (row : Nat) : ℚ := y + row * (cell_size + gp)

/-- The color picked for one cell of draw_mini_grid: weight =
col / cols; with probability 0.2 + weight * 0.6 a random choice from
levels[1:], else levels[0].  The process-wide random source is made
explicit: u is the random() draw and k the choice() draw. -/
def draw_mini_grid_color (u : ℚ) (k col cols : Nat) : Option RGB :=
  let weight : ℚ := (col : ℚ) / (cols : ℚ)
  if u < 0.2 + weight * 0.6 then pyChoice (levels.drop 1) k
  else pyGetItem levels 0

/-- icon_x of the 3x3 icon loop in create_feature_graphic. -/
def feature_icon_x : ℚ := 80

/-- icon_y of the 3x3 icon loop in create_feature_graphic. -/
def feature_icon_y : ℚ := 150

/-- icon_size of the 3x3 icon loop in create_feature_graphic. -/
def feature_icon_size : ℚ := 50

/-- icon_gap of the 3x3 icon loop in create_feature_graphic. -/
def feature_icon_gap : ℚ := 10

/-- levels of the 3x3 icon loop in create_feature_graphic. -/
def featureLevels : List RGB := [GREEN_DARK, GREEN_MED, GREEN_LIGHT, GREEN_BRIGHT]

/-- pattern of the 3x3 icon loop in create_feature_graphic. -/
def featurePattern : List (List Int) := [[0, 1, 2], [1, 2, 3], [2, 3, 3]]

/-- One iteration of create_feature_graphic's icon loop: color =
levels[pattern[row][col]], x = icon_x + col * (icon_size + icon_gap),
rounded_rectangle over [x, y, x + icon_size, y + icon_size] with the
literal radius 10. -/
def featureIconCell (row col : Nat) : Option Rect := do
  let pr ← pyGetItem featurePattern row
  let lvl ← pyGetItem pr col
  let color ← pyGetItem featureLevels lvl
  pure
    { x := feature_icon_x + col * (feature_icon_size + feature_icon_gap)
      y := feature_icon_y + row * (feature_icon_size + feature_icon_gap)
      x2 := feature_icon_x + col * (feature_icon_size + feature_icon_gap) + feature_icon_size
      y2 := feature_icon_y + row * (feature_icon_size + feature_icon_gap) + feature_icon_size
      radius := 10
      fill := color }

end Banners

namespace Screenshots

/-- Color constants of generate_screenshots.py. -/
def CARD_BG : RGB := (22, 27, 34)

def GREEN_DARK : RGB := (14, 68, 41)

def GREEN_MED : RGB := (0, 109, 50)

def GREEN_LIGHT : RGB := (38, 166, 65)

def GREEN_BRIGHT : RGB := (57, 211, 83)

/-- levels in draw_contribution_grid of generate_screenshots.py. -/
def levels : List RGB := [GREEN_DARK, GREEN_MED, GREEN_LIGHT, GREEN_BRIGHT]

/-- The color picked for one cell of draw_contribution_grid: weight =
(week / weeks) * 0.7; with probability 0.3 + weight a random choice
from levels[1:], else levels[0] or CARD_BG depending on a second
random() draw.  u1 and u2 are the two random() draws and k the
choice() draw, made explicit parameters. -/
def draw_contribution_grid_color (u1 u2 : ℚ) (k week weeks : Nat) : Option RGB :=
  let weight : ℚ := ((week : ℚ) / (weeks : ℚ)) * 0.7
  if u1 < 0.3 + weight then pyChoice (levels.drop 1) k
  else if u2 > 0.5 then pyGetItem levels 0
  else some CARD_BG

end Screenshots

/-- A resolved font: either a font file loaded at a given size (a
successful ImageFont.truetype call) or the generic
ImageFont.load_default() fallback. -/
inductive Font where
  | file (path : String) (size : Nat)
  | generic
deriving DecidableEq, Repr

/-- Path of the preferred font of generate_screenshots.py. -/
def sfnsPath : String := "/System/Library/Fonts/SFNS.ttf"

/-- Path of the Helvetica font used by all the scripts. -/
def helveticaPath : String := "/System/Library/Fonts/Helvetica.ttc"

namespace Screenshots

/-- get_font from generate_screenshots.py: try SFNS.ttf (both the bold
and regular branches load the same file), on failure try
Helvetica.ttc, on failure load_default().  The filesystem is modelled
by the availability predicate avail. -/
def get_font (avail : String → Bool) (size : Nat) (_bold : Bool) : Font :=
  if avail sfnsPath then Font.file sfnsPath size
  else if avail helveticaPath then Font.file helveticaPath size
  else Font.generic

end Screenshots

namespace Banners

/-- get_font from generate_banners.py (generate_logos.py and
generate_lifeblock_logos.py are identical): try Helvetica.ttc, on any
failure fall back directly to load_default(). -/
def get_font (avail : String → Bool) (size : Nat) : Font :=
  if avail helveticaPath then Font.file helveticaPath size
  else Font.generic

end Banners

/-! ## Supporting lemmas -/

/-- The palette entries the source builds with hex_to_rgb calls indeed
parse to the RGB triples used here, and so does the background. -/
theorem grid_colors_from_hex :
    optionList ([
      "#0E4429".toList, "#006D32".toList, "#26A641".toList, "#39D353".toList
    ].map hex_to_rgb) = some AppIcon.GRID_COLORS ∧
    hex_to_rgb "#0D1117".toList = some AppIcon.BACKGROUND :=
  ⟨rfl, rfl⟩

/-- Python random.choice on a nonempty sequence always yields some
element of the sequence. -/
theorem pyChoice_mem {α : Type} (xs : List α) (k : Nat) (h : xs ≠ []) :
    ∃ c, pyChoice xs k = some c ∧ c ∈ xs := by
  have hlen : 0 < xs.length := List.length_pos.mpr h
  have hlt : k % xs.length < xs.length := Nat.mod_lt _ hlen
  exact ⟨xs.get ⟨k % xs.length, hlt⟩, List.get?_eq_get hlt, List.get_mem xs _ _⟩

/-! ## Claim theorems -/

/-- C1: for every grid-render call and every valid cell index
(row < 3, col < 3), the top-left coordinate of the drawn cell is
exactly origin + index * (cellSize + gap): directly for draw_grid_icon
of generate_logos.py, and for create_icon of generate_icon.py with
origin padding + gap/2, cell size actual_cell and the same gap, since
its x = padding + col * cell_size + gap / 2 and cell_size =
actual_cell + gap. -/
theorem grid_cell_topleft_coord (x y cs g : ℚ) (row col : Nat)
    (hr : row < 3) (hc : col < 3) :
    (∃ r : Rect, Logos.cellRect x y cs g row col = some r ∧
      r.x = x + col * (cs + g) ∧ r.y = y + row * (cs + g)) ∧
    (∀ size : ℚ, ∃ r : Rect, AppIcon.cellOf size row col = some r ∧
      r.x = (AppIcon.padding size + AppIcon.gap size / 2)
              + col * (AppIcon.actual_cell size + AppIcon.gap size) ∧
      r.y = (AppIcon.padding size + AppIcon.gap size / 2)
              + row * (AppIcon.actual_cell size + AppIcon.gap size)) := by
  interval_cases row <;> interval_cases col <;>
    exact ⟨⟨_, rfl, by push_cast [Logos.cellX]; ring, by push_cast [Logos.cellY]; ring⟩,
      fun size => ⟨_, rfl, by push_cast [AppIcon.cellX, AppIcon.actual_cell]; ring,
        by push_cast [AppIcon.cellY, AppIcon.actual_cell]; ring⟩⟩

/-- C1 witness: at origin (0,0), cellSize 100, gap 12, the cell at
row 1, col 2 is drawn with top-left (224, 112). -/
theorem grid_cell_topleft_coord_witness :
    ∃ r : Rect, Logos.cellRect 0 0 100 12 1 2 = some r ∧ r.x = 224 ∧ r.y = 112 := by
  obtain ⟨r, h1, h2, h3⟩ := (grid_cell_topleft_coord 0 0 100 12 1 2 (by norm_num) (by norm_num)).1
  exact ⟨r, h1, by rw [h2]; norm_num, by rw [h3]; norm_num⟩

/-- C2: in the 3x3 scenario with levelMatrix [[1,2,3],[2,3,4],[3,4,4]],
cellSize 100, gap 12 and origin (0,0), the cell at row 1, col 2 has
top-left (224, 112), its level is 4, and level 4 maps through the
level - 1 lookup of create_icon to the palette entry at index 3, the
brightest shade (57, 211, 83). -/
theorem scenario_cell_1_2 :
    Logos.cellX 0 100 12 2 = 224 ∧
    Logos.cellY 0 100 12 1 = 112 ∧
    (pyGetItem AppIcon.grid_levels 1).bind (fun r => pyGetItem r 2) = some 4 ∧
    AppIcon.levelColor 4 = pyGetItem AppIcon.GRID_COLORS 3 ∧
    AppIcon.levelColor 4 = some (57, 211, 83) ∧
    (∃ r : Rect, Logos.cellRect 0 0 100 12 1 2 = some r ∧
      r.x = 224 ∧ r.y = 112 ∧ r.fill = (57, 211, 83)) := by
  refine ⟨by norm_num [Logos.cellX], by norm_num [Logos.cellY], rfl, rfl, rfl, ?_⟩
  exact ⟨_, rfl, by norm_num [Logos.cellX], by norm_num [Logos.cellY], rfl⟩

/-- C3 counterexample: level 0 under the level - 1 convention of
create_icon does not stop the run: Python wraps index -1 to the last
entry, so the lookup silently substitutes the brightest palette color
instead of failing. -/
theorem level_zero_wraps_to_brightest :
    AppIcon.levelColor 0 ≠ none ∧
    AppIcon.levelColor 0 = some (57, 211, 83) ∧
    pyGetItem AppIcon.GRID_COLORS 3 = some (57, 211, 83) := by
  exact ⟨by decide, rfl, rfl⟩

/-- C3 amended: a level index beyond Python's index range on either
side (at or above the palette length after the level - 1 shift, or
below minus its length) makes the lookup fail with no clamp or default
color, and the failure propagates; but level 0 is not such an index:
it wraps to the last (brightest) entry. -/
theorem palette_oob_lookup (level : Int) :
    (5 ≤ level → AppIcon.levelColor level = none) ∧
    (level ≤ -4 → AppIcon.levelColor level = none) ∧
    (4 ≤ level → pyGetItem Logos.levels level = none) ∧
    AppIcon.levelColor 0 = some (57, 211, 83) := by
  refine ⟨?_, ?_, ?_, rfl⟩
  · intro h
    unfold AppIcon.levelColor pyGetItem
    rw [if_pos (by omega)]
    apply List.get?_eq_none.mpr
    simp [AppIcon.GRID_COLORS]
    omega
  · intro h
    unfold AppIcon.levelColor pyGetItem
    simp only [AppIcon.GRID_COLORS, List.length_cons, List.length_nil]
    rw [if_neg (by omega), if_neg (by push_cast; omega)]
  · intro h
    unfold pyGetItem
    rw [if_pos (by omega)]
    apply List.get?_eq_none.mpr
    simp [Logos.levels]
    omega

/-- C3 witness: level 5 against the 4-entry palettes is an unrecovered
failure in both deterministic grid routines, while level 0 wraps. -/
theorem palette_oob_lookup_witness :
    AppIcon.levelColor 5 = none ∧
    pyGetItem Logos.levels 5 = none ∧
    AppIcon.levelColor 0 = some (57, 211, 83) := by
  obtain ⟨h1, _, h3, h4⟩ := palette_oob_lookup 5
  exact ⟨h1 (by norm_num), h3 (by norm_num), h4⟩

/-- C4: every palette used by a grid routine is ordered: the entry at
index 0 is the dimmest (empty/background) shade and the entry at the
highest index is the brightest (maximum-activity) shade, under BT.601
luma; in the banners palette index 0 is literally the card-background
color. -/
theorem palette_order_invariant :
    paletteOrdered AppIcon.GRID_COLORS = true ∧
    paletteOrdered Banners.levels = true ∧
    paletteOrdered Logos.levels = true ∧
    paletteOrdered Screenshots.levels = true ∧
    paletteOrdered Lifeblock.levels = true ∧
    paletteOrdered Banners.featureLevels = true ∧
    Banners.levels.get? 0 = some Banners.CARD_BG ∧
    Banners.levels.getLastD Banners.CARD_BG = Banners.GREEN_BRIGHT ∧
    Logos.levels.getLastD Logos.GREEN_DARK = Logos.GREEN_BRIGHT := by
  decide

/-- C5 counterexample: in an environment where Helvetica.ttc is
missing but every other font file (in particular the SFNS.ttf
secondary used by the screenshots script) is available, the banners
get_font returns the generic default immediately: its chain has no
second font-file step, so the three-step chain is not followed by
every routine. -/
theorem banners_font_no_secondary_step :
    Banners.get_font (fun p => !(p == helveticaPath)) 72 = Font.generic ∧
    (fun p => !(p == helveticaPath)) sfnsPath = true := by
  exact ⟨rfl, rfl⟩

/-- C5 amended: the screenshots get_font follows the three-step chain
preferred SFNS.ttf, then Helvetica.ttc, then the generic default; the
banners (and logos) get_font has only a two-step chain Helvetica.ttc
then generic default; in every environment each routine returns some
renderable font, never an error. -/
theorem get_font_fallback_chain (avail : String → Bool) (size : Nat) (bld : Bool) :
    (avail sfnsPath = true → Screenshots.get_font avail size bld = Font.file sfnsPath size) ∧
    (avail sfnsPath = false → avail helveticaPath = true →
      Screenshots.get_font avail size bld = Font.file helveticaPath size) ∧
    (avail sfnsPath = false → avail helveticaPath = false →
      Screenshots.get_font avail size bld = Font.generic) ∧
    (avail helveticaPath = true → Banners.get_font avail size = Font.file helveticaPath size) ∧
    (avail helveticaPath = false → Banners.get_font avail size = Font.generic) := by
  unfold Screenshots.get_font Banners.get_font
  refine ⟨fun h1 => by rw [h1]; rfl, fun h1 h2 => by rw [h1, h2]; rfl,
    fun h1 h2 => by rw [h1, h2]; rfl, fun h2 => by rw [h2]; rfl, fun h2 => by rw [h2]; rfl⟩

/-- C5 witness: with no font file available at all, both routines
still resolve to the generic default font. -/
theorem get_font_fallback_chain_witness :
    Screenshots.get_font (fun _ => false) 36 false = Font.generic ∧
    Banners.get_font (fun _ => false) 36 = Font.generic := by
  obtain ⟨_, _, h3, _, h5⟩ := get_font_fallback_chain (fun _ => false) 36 false
  exact ⟨h3 rfl rfl, h5 rfl⟩

/-- C6: the deterministic grid renders are pure functions of their
parameters, so two runs on the same inputs are identical draw-call for
draw-call; the randomized mock-data variant is excluded for good
reason, since its cell color genuinely depends on the hidden random
source. -/
theorem deterministic_render_reproducible :
    (∀ x y cs g : ℚ, Logos.draw_grid_icon x y cs g = Logos.draw_grid_icon x y cs g) ∧
    (∀ size : ℚ, AppIcon.create_icon size = AppIcon.create_icon size) ∧
    (∃ u1 u2 : ℚ, ∃ k : Nat,
      Banners.draw_mini_grid_color u1 k 0 15 ≠ Banners.draw_mini_grid_color u2 k 0 15) := by
  refine ⟨fun _ _ _ _ => rfl, fun _ => rfl, 0, 1, 0, ?_⟩
  have h1 : Banners.draw_mini_grid_color 0 0 0 15 = some Banners.GREEN_DARK := by
    norm_num [Banners.draw_mini_grid_color, pyChoice, Banners.levels]
  have h2 : Banners.draw_mini_grid_color 1 0 0 15 = some Banners.CARD_BG := by
    norm_num [Banners.draw_mini_grid_color, pyChoice, pyGetItem, Banners.levels]
  rw [h1, h2]
  decide

/-- C7: in the deterministic grid variants every rounded rectangle is
drawn with corner radius exactly 0.2 times the cell size: cell_size *
0.2 in draw_grid_icon, the literal 10 = 0.2 * 50 in the 3x3 icon of
create_feature_graphic, and actual_cell * 0.2 in create_icon. -/
theorem corner_radius_fraction (x y cs g : ℚ) (row col : Nat)
    (hr : row < 3) (hc : col < 3) :
    (∃ r : Rect, Logos.cellRect x y cs g row col = some r ∧ r.radius = 0.2 * cs) ∧
    (∃ r : Rect, Banners.featureIconCell row col = some r ∧
      r.radius = 0.2 * Banners.feature_icon_size) ∧
    (∀ size : ℚ, ∃ r : Rect, AppIcon.cellOf size row col = some r ∧
      r.radius = 0.2 * AppIcon.actual_cell size) := by
  interval_cases row <;> interval_cases col <;>
    exact ⟨⟨_, rfl, by ring⟩,
      ⟨_, rfl, by norm_num [Banners.feature_icon_size]⟩,
      fun size => ⟨_, rfl, by rw [AppIcon.corner_radius]; ring⟩⟩

/-- C7 witness: with cell size 100 the logo grid cell at row 1, col 2
has corner radius 20 = 0.2 * 100, and the feature-graphic icon cell
has its literal radius 10 = 0.2 * 50. -/
theorem corner_radius_fraction_witness :
    (∃ r : Rect, Logos.cellRect 0 0 100 12 1 2 = some r ∧ r.radius = 20) ∧
    (∃ r : Rect, Banners.featureIconCell 1 2 = some r ∧ r.radius = 10) := by
  obtain ⟨⟨r1, e1, q1⟩, ⟨r2, e2, q2⟩, _⟩ :=
    corner_radius_fraction 0 0 100 12 1 2 (by norm_num) (by norm_num)
  exact ⟨⟨r1, e1, by rw [q1]; norm_num⟩,
         ⟨r2, e2, by rw [q2]; norm_num [Banners.feature_icon_size]⟩⟩

/-- C8: whenever gap > 0, adjacent columns of a grid are laid out
cellSize + gap apart, which is strictly more than cellSize, so the
spans of horizontally adjacent cells are disjoint; symmetrically for
adjacent rows, in both draw_mini_grid of generate_banners.py and
draw_grid_icon of generate_lifeblock_logos.py. -/
theorem adjacent_cells_disjoint (x y cs g : ℚ) (col row : Nat) (hg : 0 < g) :
    (Banners.miniCellX x cs g (col + 1) - Banners.miniCellX x cs g col = cs + g) ∧
    (cs + g > cs) ∧
    (Banners.miniCellX x cs g col + cs < Banners.miniCellX x cs g (col + 1)) ∧
    (Banners.miniCellY y cs g (row + 1) - Banners.miniCellY y cs g row = cs + g) ∧
    (Banners.miniCellY y cs g row + cs < Banners.miniCellY y cs g (row + 1)) ∧
    (Lifeblock.cellX x cs g (col + 1) - Lifeblock.cellX x cs g col = cs + g) ∧
    (Lifeblock.cellX x cs g col + cs < Lifeblock.cellX x cs g (col + 1)) ∧
    (Lifeblock.cellY y cs g (row + 1) - Lifeblock.cellY y cs g row = cs + g) ∧
    (Lifeblock.cellY y cs g row + cs < Lifeblock.cellY y cs g (row + 1)) := by
  unfold Banners.miniCellX Banners.miniCellY Lifeblock.cellX Lifeblock.cellY
  push_cast
  refine ⟨by ring, by linarith, by nlinarith, by ring, by nlinarith,
    by ring, by nlinarith, by ring, by nlinarith⟩

/-- C8 witness: with cell size 20 and gap 4 (the draw_mini_grid
defaults), column 0 starts at 0, column 1 starts at 24 = 20 + 4, and
the first cell ends at 20 < 24. -/
theorem adjacent_cells_disjoint_witness :
    Banners.miniCellX 0 20 4 1 - Banners.miniCellX 0 20 4 0 = 24 ∧
    Banners.miniCellX 0 20 4 0 + 20 < Banners.miniCellX 0 20 4 1 := by
  obtain ⟨h1, _, h3, _⟩ := adjacent_cells_disjoint 0 0 20 4 0 0 (by norm_num)
  exact ⟨by rw [h1]; norm_num, h3⟩

/-- C9: on any string of exactly six hexadecimal digits, with or
without a leading hash, hex_to_rgb parses the digit pairs at offsets
0, 2 and 4 as base-16 bytes and returns their triple. -/
theorem hex_to_rgb_parses (c0 c1 c2 c3 c4 c5 : Char) (v0 v1 v2 v3 v4 v5 : Nat)
    (h0 : hexDigitVal c0 = some v0) (h1 : hexDigitVal c1 = some v1)
    (h2 : hexDigitVal c2 = some v2) (h3 : hexDigitVal c3 = some v3)
    (h4 : hexDigitVal c4 = some v4) (h5 : hexDigitVal c5 = some v5) :
    hex_to_rgb [c0, c1, c2, c3, c4, c5] =
      some (16 * v0 + v1, 16 * v2 + v3, 16 * v4 + v5) ∧
    hex_to_rgb ('#' :: [c0, c1, c2, c3, c4, c5]) =
      some (16 * v0 + v1, 16 * v2 + v3, 16 * v4 + v5) := by
  have hc0 : c0 ≠ '#' := by
    intro heq
    rw [heq] at h0
    exact Option.noConfusion ((by decide : hexDigitVal '#' = none) ▸ h0)
  have key : hex_to_rgb [c0, c1, c2, c3, c4, c5] =
      some (16 * v0 + v1, 16 * v2 + v3, 16 * v4 + v5) := by
    unfold hex_to_rgb lstripHash
    rw [if_neg hc0]
    simp [pyIntHex, h0, h1, h2, h3, h4, h5]
  have hstrip : lstripHash ('#' :: [c0, c1, c2, c3, c4, c5]) =
      lstripHash [c0, c1, c2, c3, c4, c5] := rfl
  have hsame : hex_to_rgb ('#' :: [c0, c1, c2, c3, c4, c5]) =
      hex_to_rgb [c0, c1, c2, c3, c4, c5] := by
    unfold hex_to_rgb
    rw [hstrip]
  exact ⟨key, by rw [hsame, key]⟩

/-- C9 witness: hex_to_rgb("#39D353") = (57, 211, 83), with and
without the leading hash. -/
theorem hex_to_rgb_parses_witness :
    hex_to_rgb ['#', '3', '9', 'D', '3', '5', '3'] = some (57, 211, 83) ∧
    hex_to_rgb ['3', '9', 'D', '3', '5', '3'] = some (57, 211, 83) := by
  obtain ⟨h1, h2⟩ :=
    hex_to_rgb_parses '3' '9' 'D' '3' '5' '3' 3 9 13 3 5 3 rfl rfl rfl rfl rfl rfl
  exact ⟨h2, h1⟩

/-- C10 counterexample: the bright sub-palette levels[1:] of
draw_contribution_grid in generate_screenshots.py has three entries,
not four: its levels list holds only the four greens, unlike the
five-entry list of draw_mini_grid. -/
theorem contribution_subpalette_three :
    (Screenshots.levels.drop 1).length = 3 ∧
    ((Screenshots.levels.drop 1).length = 4 → False) ∧
    (Banners.levels.drop 1).length = 4 := by
  decide

/-- C10 amended: every cell color produced by the randomized mock-data
grids is an element of the routine's palette: the bright sub-palette
levels[1:] passed to random.choice is non-empty (four entries in
draw_mini_grid, three in draw_contribution_grid), so the choice is
always well-defined and never raises, and the fallback branch yields
levels[0] (banners) or levels[0] / the card background
(screenshots). -/
theorem mock_grid_color_in_palette (u u1 u2 : ℚ) (k k2 col cols week weeks : Nat)
    (_hcols : 0 < cols) (_hweeks : 0 < weeks) :
    (∃ c, Banners.draw_mini_grid_color u k col cols = some c ∧ c ∈ Banners.levels) ∧
    (Banners.levels.drop 1).length = 4 ∧
    (∃ c, Screenshots.draw_contribution_grid_color u1 u2 k2 week weeks = some c ∧
      (c ∈ Screenshots.levels ∨ c = Screenshots.CARD_BG)) ∧
    (Screenshots.levels.drop 1).length = 3 ∧
    Banners.levels.drop 1 ≠ [] ∧ Screenshots.levels.drop 1 ≠ [] := by
  refine ⟨?_, by rfl, ?_, by rfl, by decide, by decide⟩
  · dsimp only [Banners.draw_mini_grid_color]
    split
    · obtain ⟨c, hcq, hmem⟩ := pyChoice_mem (Banners.levels.drop 1) k (by decide)
      exact ⟨c, hcq, List.drop_subset 1 Banners.levels hmem⟩
    · exact ⟨Banners.CARD_BG, rfl, by decide⟩
  · dsimp only [Screenshots.draw_contribution_grid_color]
    split
    · obtain ⟨c, hcq, hmem⟩ := pyChoice_mem (Screenshots.levels.drop 1) k2 (by decide)
      exact ⟨c, hcq, Or.inl (List.drop_subset 1 Screenshots.levels hmem)⟩
    · split
      · exact ⟨Screenshots.GREEN_DARK, rfl, Or.inl (by decide)⟩
      · exact ⟨Screenshots.CARD_BG, rfl, Or.inr rfl⟩

/-- C10 witness: at the banner call site (15 columns) and a screenshot
call site (12 weeks), both randomized routines produce a palette
color for the first cell under a concrete random draw. -/
theorem mock_grid_color_in_palette_witness :
    (∃ c, Banners.draw_mini_grid_color 0 0 0 15 = some c ∧ c ∈ Banners.levels) ∧
    (∃ c, Screenshots.draw_contribution_grid_color 0 0 0 0 12 = some c ∧
      (c ∈ Screenshots.levels ∨ c = Screenshots.CARD_BG)) := by
  obtain ⟨hb, _, hs, _⟩ :=
    mock_grid_color_in_palette 0 0 0 0 0 0 15 0 12 (by norm_num) (by norm_num)
  exact ⟨hb, hs⟩
